import Mathlib

set_option linter.unusedVariables false

/-!
Verification of the deploy/teardown orchestrator of `observ-demo`
(`src/cli/observ_demo/commands/deploy.py` and
`src/cli/observ_demo/commands/teardown.py`), as a shallow embedding.

External processes are opaque collaborators: each subprocess invocation is
represented by a `ProcOutcome` oracle value saying how the call ended
(normal completion with a return code and captured streams, a timeout, or a
raised exception such as a missing binary).  The Python functions are
translated into total Lean functions over these oracles; `sys.exit(n)` is
modelled as returning exit code `n` together with the list of pipeline
phases that were reached.
-/

/-- How a `subprocess.run` / `subprocess.Popen` invocation ended:
normal completion (with return code, stdout, stderr), expiry of the
configured timeout (`subprocess.TimeoutExpired`), or a raised exception
(binary not found, I/O error, ...) carrying its message. -/
inductive ProcOutcome where
  | completed (returncode : Nat) (stdout stderr : String)
  | timedOut
  | raised (msg : String)
deriving DecidableEq, Repr

/-- The `(exit_code, stdout, stderr)` triple every runner returns. -/
structure ExecResult where
  exit_code : Nat
  stdout : String
  stderr : String
deriving DecidableEq, Repr

/-- Python's `str.strip()`: drop leading and trailing whitespace. -/
def pyStrip (s : String) : String :=
  String.mk (((s.data.dropWhile Char.isWhitespace).reverse.dropWhile Char.isWhitespace).reverse)

/-- Python's `str.lower()` (over the ASCII range used by the markers). -/
def pyLower (s : String) : String :=
  String.mk (s.data.map Char.toLower)

/-- Helper for `pySplit`: split on whitespace, accumulating the current
piece in reverse; empty pieces are discarded as Python's `split()` does. -/
def splitWsAux : List Char → List Char → List (List Char)
  | [], acc => if acc.isEmpty then [] else [acc.reverse]
  | c :: t, acc =>
    if c.isWhitespace then
      if acc.isEmpty then splitWsAux t [] else acc.reverse :: splitWsAux t []
    else splitWsAux t (c :: acc)

/-- Python's `str.split()` (no argument): split on runs of whitespace,
discarding empty pieces. -/
def pySplit (s : String) : List String :=
  (splitWsAux s.data []).map String.mk

/-- Python's substring test `needle in hay`, on character lists. -/
def containsSub : List Char → List Char → Bool
  | [], needle => needle.isEmpty
  | c :: t, needle => needle.isPrefixOf (c :: t) || containsSub t needle

namespace TerraformDeployer

/-- `TerraformDeployer.run_command` (deploy.py lines 36-51): returns
`(result.returncode, stdout.strip(), stderr.strip())` on completion,
`(1, "", "Command timed out after 1 hour")` on `TimeoutExpired`
(the configured timeout is 3600 s), and `(1, "", str(e))` on any other
exception.  It never raises: the Lean function is total into `ExecResult`. -/
def run_command : ProcOutcome → ExecResult
  | ProcOutcome.completed c out err => ⟨c, pyStrip out, pyStrip err⟩
  | ProcOutcome.timedOut => ⟨1, "", "Command timed out after 1 hour"⟩
  | ProcOutcome.raised msg => ⟨1, "", msg⟩

/-- `terraform_plan` (deploy.py lines 53-71): runs `terraform plan` via
`run_command` and reports success iff the exit code is 0. -/
def terraform_plan (o : ProcOutcome) : Bool :=
  (run_command o).exit_code == 0

/-- The hard-coded `progress_markers` list of `terraform_apply`
(deploy.py lines 106-113): substring pattern and target percent. -/
def progress_markers : List (String × Nat) :=
  [("project-setup", 10), ("vpc-network", 20), ("gke-cluster", 60),
   ("iap-config", 75), ("monitoring", 85), ("budget-alerts", 95)]

/-- One iteration of the monitor loop of `terraform_apply`
(deploy.py lines 116-123) on a single output line: for each marker in
order, if `marker in line.lower()` and `current_progress < target_progress`,
set `current_progress = target_progress`. -/
def observe_line (markers : List (String × Nat)) (cur : Nat) (line : String) : Nat :=
  markers.foldl
    (fun p mt =>
      if containsSub (pyLower line).toList mt.1.toList && p < mt.2 then mt.2 else p)
    cur

/-- The displayed progress after the monitor loop of `terraform_apply` has
consumed a stream of output lines, starting from `current_progress = 0`. -/
def apply_progress (lines : List String) : Nat :=
  lines.foldl (observe_line progress_markers) 0

/-- `terraform_apply` (deploy.py lines 73-136): the success of the phase is
determined solely by the process return code (`process.returncode == 0`);
the monitored output `lines` only drive the cosmetic progress display. -/
def terraform_apply (lines : List String) (returncode : Nat) : Bool :=
  returncode == 0

/-- `get_terraform_outputs` (deploy.py lines 138-152): runs
`terraform output -json`; on exit code 0 parses the JSON (`parsed` is the
oracle for `json.loads` plus the per-key `value` extraction, `none` meaning
`JSONDecodeError`) and returns the dictionary, else returns `{}`. -/
def get_terraform_outputs (o : ProcOutcome)
    (parsed : Option (List (String × String))) : List (String × String) :=
  if (run_command o).exit_code == 0 then
    match parsed with
    | some kvs => kvs
    | none => []
  else []

end TerraformDeployer

namespace TeardownManager

/-- `TeardownManager.run_command` (teardown.py lines 29-44): identical shape
to the deploy runner but with a 1800 s timeout and the fixed timeout
message `"Command timed out"` (which does not mention the duration). -/
def run_command : ProcOutcome → ExecResult
  | ProcOutcome.completed c out err => ⟨c, pyStrip out, pyStrip err⟩
  | ProcOutcome.timedOut => ⟨1, "", "Command timed out"⟩
  | ProcOutcome.raised msg => ⟨1, "", msg⟩

end TeardownManager

namespace KubernetesDeployer

/-- `KubernetesDeployer.run_kubectl` (deploy.py lines 163-178): same shape
as the other runners, 300 s timeout, timeout message
`"kubectl command timed out"`. -/
def run_kubectl : ProcOutcome → ExecResult
  | ProcOutcome.completed c out err => ⟨c, pyStrip out, pyStrip err⟩
  | ProcOutcome.timedOut => ⟨1, "", "kubectl command timed out"⟩
  | ProcOutcome.raised msg => ⟨1, "", msg⟩

/-- `configure_kubectl` (deploy.py lines 180-201): calls `subprocess.run`
on `gcloud container clusters get-credentials` inside `try/except`;
succeeds iff the call completed with return code 0 (a timeout raises
`TimeoutExpired`, caught by the `except` clause, hence `false`). -/
def configure_kubectl : ProcOutcome → Bool
  | ProcOutcome.completed c _ _ => c == 0
  | ProcOutcome.timedOut => false
  | ProcOutcome.raised _ => false

/-- `verify_cluster_access` (deploy.py lines 203-215): runs
`kubectl get nodes` and succeeds iff the exit code is 0. -/
def verify_cluster_access (o : ProcOutcome) : Bool :=
  (run_kubectl o).exit_code == 0

/-- The four kubectl invocations `create_namespace` can make, in source
order: the client-side dry-run create, the `apply -f -`, the
`get namespace`, and the direct `create namespace`. -/
structure NamespaceCalls where
  dryRun : ProcOutcome
  applyStdin : ProcOutcome
  getNs : ProcOutcome
  createNs : ProcOutcome
deriving DecidableEq, Repr

/-- `create_namespace` (deploy.py lines 217-240), translated branch by
branch: dry-run create (result used only to gate the `apply`), then
`get namespace` (exit 0 means `return True`), then a direct
`create namespace` (`return True` on exit 0 or a stderr containing
"already exists"), and finally the fallthrough
`return True  # Continue anyway, might already exist`. -/
def create_namespace (ns : String) (calls : NamespaceCalls) : Bool :=
  let r1 := run_kubectl calls.dryRun
  let _r2 := if r1.exit_code == 0 then some (run_kubectl calls.applyStdin) else none
  let r3 := run_kubectl calls.getNs
  if r3.exit_code == 0 then true
  else
    let r4 := run_kubectl calls.createNs
    if r4.exit_code == 0 || containsSub (pyLower r4.stderr).toList "already exists".toList then
      true
    else true

/-- The body test of the polling loop of `wait_for_pods`
(deploy.py lines 270-274): the kubectl query succeeded (`code == 0`), its
stdout is non-empty (Python truthiness of `stdout`), and every
whitespace-separated Ready-condition status equals `"True"`. -/
def podsReady (r : ExecResult) : Bool :=
  r.exit_code == 0 && !(r.stdout == "") && (pySplit r.stdout).all (fun s => s == "True")

/-- The `while time.time() - start_time < timeout` loop of `wait_for_pods`
(deploy.py lines 263-276), under idealized instantaneous queries: after
`k` completed poll cycles the elapsed time is `10 * k` seconds (the
hard-coded `time.sleep(10)`).  `query k` is the result of the kubectl
invocation of cycle `k`; the `fuel` argument only bounds the recursion
and is chosen large enough in `wait_for_pods` to never be exhausted.
Returns the boolean result together with the number of poll attempts. -/
def waitLoop (query : Nat → ExecResult) (timeout : Nat) : Nat → Nat → Bool × Nat
  | 0, k => (false, k)
  | fuel + 1, k =>
    if 10 * k < timeout then
      if podsReady (query k) then (true, k + 1)
      else waitLoop query timeout fuel (k + 1)
    else (false, k)

/-- `wait_for_pods` (deploy.py lines 258-279): poll until every pod's
Ready condition is `"True"` or `timeout` seconds have elapsed; returns
`false` (never an exception) on timeout.  Result: success flag and the
number of poll attempts made. -/
def wait_for_pods (query : Nat → ExecResult) (timeout : Nat) : Bool × Nat :=
  waitLoop query timeout (timeout + 1) 0

end KubernetesDeployer

namespace NotificationService

/-- How the `requests.post` to the Slack webhook ended: an HTTP response
with a status code and body text, or a raised exception (network timeout,
connection error, ...). -/
inductive HttpOutcome where
  | response (status : Nat) (text : String)
  | error (msg : String)
deriving DecidableEq, Repr

/-- `send_email` (deploy.py lines 285-291): a placeholder that prints and
returns `True` unconditionally. -/
def send_email (email : String) : Bool :=
  true

/-- `send_slack` (deploy.py lines 293-315): posts to the webhook inside
`try/except`; returns `True` iff the response status is 200, `False` on a
non-200 response or on any exception — the failure is captured inside the
function, never propagated. -/
def send_slack (o : HttpOutcome) : Bool :=
  match o with
  | HttpOutcome.response status _ => status == 200
  | HttpOutcome.error _ => false

end NotificationService

/-- Python's `dict.get(key, default)` on the terraform-outputs dictionary. -/
def pyGet (d : List (String × String)) (key dflt : String) : String :=
  match d.lookup key with
  | some v => v
  | none => dflt

/-- Python truthiness of an `Optional[str]`: `None` and `""` are falsy. -/
def optStrTruthy : Option String → Bool
  | some s => !(s == "")
  | none => false

/-- Result of a `deploy_command` / `teardown_command` run: the process exit
code (`sys.exit(n)` or `return n`), the pipeline phases that were reached
in order, and the boolean results of the notification channels that were
attempted (emails in order, then Slack). -/
structure DeployResult where
  exit_code : Nat
  phases : List String
  notify_results : List Bool
deriving DecidableEq, Repr

/-- Everything external a `deploy_command` run consumes, in source order:
whether the terraform directory exists, the `terraform plan` outcome, the
user's answer to the confirmation prompt, the monitored output lines and
return code of `terraform apply`, the `terraform output -json` outcome and
its parsed dictionary, the `configure_kubectl` and `verify_cluster_access`
outcomes, the kubectl calls of the two `create_namespace` invocations, and
the Slack webhook outcome. -/
structure DeployWorld where
  dir_exists : Bool
  plan : ProcOutcome
  confirmAns : Bool
  apply_lines : List String
  apply_returncode : Nat
  outputRes : ProcOutcome
  parsed : Option (List (String × String))
  cfgRes : ProcOutcome
  verRes : ProcOutcome
  nsOtel : KubernetesDeployer.NamespaceCalls
  nsMicro : KubernetesDeployer.NamespaceCalls
  slackRes : NotificationService.HttpOutcome
deriving DecidableEq, Repr

/-- `deploy_command` (deploy.py lines 318-461), phase by phase:
terraform directory check (`sys.exit(1)` if absent), Phase 1 plan
(`sys.exit(1)` on failure), confirmation prompt unless `auto_approve`
(`sys.exit(0)` when declined), Phase 2 apply (`sys.exit(1)` on failure),
Phase 3 output extraction — `cluster_name` and `project_id` default to
`""`, `region` defaults to `"us-central1"`, and `sys.exit(1)` fires iff
`cluster_name` or `project_id` is empty — Phase 4 kubectl configuration
and access verification (`sys.exit(1)` on failure), Phase 5 namespace
creation (results discarded), Phase 6 notifications (results discarded),
then `return 0`. -/
def deploy_command (w : DeployWorld) (auto_approve : Bool)
    (notify_email : List String) (notify_slack : Option String)
    (deploy_otel deploy_microservices : Bool) : DeployResult :=
  if !w.dir_exists then ⟨1, [], []⟩
  else if !TerraformDeployer.terraform_plan w.plan then ⟨1, ["terraform-plan"], []⟩
  else if !auto_approve && !w.confirmAns then ⟨0, ["terraform-plan", "confirm"], []⟩
  else
    let ph := if auto_approve then ["terraform-plan"] else ["terraform-plan", "confirm"]
    let ph := ph ++ ["terraform-apply"]
    if !TerraformDeployer.terraform_apply w.apply_lines w.apply_returncode then ⟨1, ph, []⟩
    else
      let ph := ph ++ ["extract-outputs"]
      let outputs := TerraformDeployer.get_terraform_outputs w.outputRes w.parsed
      let cluster_name := pyGet outputs "cluster_name" ""
      let project_id := pyGet outputs "project_id" ""
      let region := pyGet outputs "region" "us-central1"
      if cluster_name == "" || project_id == "" then ⟨1, ph, []⟩
      else
        let ph := ph ++ ["configure-kubectl"]
        if !KubernetesDeployer.configure_kubectl w.cfgRes then ⟨1, ph, []⟩
        else
          let ph := ph ++ ["verify-cluster-access"]
          if !KubernetesDeployer.verify_cluster_access w.verRes then ⟨1, ph, []⟩
          else
            let ph := if deploy_otel then
                ph ++ ["create-namespace-opentelemetry"] else ph
            let _ := if deploy_otel then
                some (KubernetesDeployer.create_namespace "opentelemetry" w.nsOtel) else none
            let ph := if deploy_microservices then
                ph ++ ["create-namespace-microservices-demo"] else ph
            let _ := if deploy_microservices then
                some (KubernetesDeployer.create_namespace "microservices-demo" w.nsMicro) else none
            if !notify_email.isEmpty || optStrTruthy notify_slack then
              let results := notify_email.map NotificationService.send_email ++
                (if optStrTruthy notify_slack then
                  [NotificationService.send_slack w.slackRes] else [])
              ⟨0, ph ++ ["notify"], results⟩
            else ⟨0, ph, []⟩

namespace TeardownManager

/-- `delete_namespace` (teardown.py lines 46-65): first `kubectl get
namespace`; a non-zero exit means "not found, skipping" and `return True`.
Otherwise `kubectl delete namespace --wait=true`; `True` iff it exits 0. -/
def delete_namespace (getRes delRes : ProcOutcome) : Bool :=
  if !((run_command getRes).exit_code == 0) then true
  else (run_command delRes).exit_code == 0

/-- `terraform_destroy` (teardown.py lines 67-114): missing terraform
directory or uninitialized terraform is "skipping" (`True`); a declined
confirmation (when not auto-approved) is `False`; otherwise `terraform
destroy` runs and the phase succeeds iff it exits 0. -/
def terraform_destroy (dirExists initialized : Bool) (auto_approve confirmAns : Bool)
    (destroyRes : ProcOutcome) : Bool :=
  if !dirExists then true
  else if !initialized then true
  else if !auto_approve && !confirmAns then false
  else (run_command destroyRes).exit_code == 0

/-- `cleanup_state_bucket` (teardown.py lines 116-135), with the list of
subprocess commands the function executes as the second component.  The
source contains no subprocess call at all: with `keep_state` it prints the
manual `gsutil` instructions; without it, a declined confirmation preserves
the bucket, and a confirmed deletion only prints "State bucket deletion not
yet implemented" plus manual instructions.  Every branch returns `True`. -/
def cleanup_state_bucket (keep_state confirmAns : Bool) : Bool × List (List String) :=
  if keep_state then (true, [])
  else if !confirmAns then (true, [])
  else (true, [])

end TeardownManager

/-- Everything external a `teardown_command` run consumes, in source order:
the user's answer to the initial teardown prompt, the kubectl get/delete
outcomes for the two namespaces, the terraform directory and init state,
the destroy confirmation answer and the `terraform destroy` outcome, and
the state-bucket confirmation answer. -/
structure TeardownWorld where
  confirmTeardown : Bool
  nsGetOtel : ProcOutcome
  nsDelOtel : ProcOutcome
  nsGetMicro : ProcOutcome
  nsDelMicro : ProcOutcome
  dirExists : Bool
  initialized : Bool
  confirmDestroy : Bool
  destroyRes : ProcOutcome
  confirmBucket : Bool
deriving DecidableEq, Repr

/-- `teardown_command` (teardown.py lines 138-225): initial confirmation
unless `auto_approve` (`return 0` when declined, nothing runs); Phase 1
deletes the `opentelemetry` and `microservices-demo` namespaces with both
results discarded; Phase 2 runs `terraform_destroy` (`return 1` on
failure); Phase 3 runs `cleanup_state_bucket` (result discarded);
`return 0`. -/
def teardown_command (w : TeardownWorld) (auto_approve keep_state : Bool) :
    Nat × List String :=
  if !auto_approve && !w.confirmTeardown then (0, [])
  else
    let _ := TeardownManager.delete_namespace w.nsGetOtel w.nsDelOtel
    let _ := TeardownManager.delete_namespace w.nsGetMicro w.nsDelMicro
    let ph := ["delete-namespace-opentelemetry", "delete-namespace-microservices-demo",
               "infrastructure-destroy"]
    if !TeardownManager.terraform_destroy w.dirExists w.initialized auto_approve
        w.confirmDestroy w.destroyRes then (1, ph)
    else
      let _ := TeardownManager.cleanup_state_bucket keep_state w.confirmBucket
      (0, ph ++ ["state-cleanup"])

/-! ## Helper lemmas -/

/-- The marker fold of the monitor loop never decreases the progress. -/
lemma le_observe_line (markers : List (String × Nat)) (cur : Nat) (line : String) :
    cur ≤ TerraformDeployer.observe_line markers cur line := by
  rw [TerraformDeployer.observe_line]
  induction markers generalizing cur with
  | nil => simp
  | cons mt rest ih =>
    simp only [List.foldl_cons]
    refine le_trans ?_ (ih _)
    split
    · next h =>
      simp only [Bool.and_eq_true, decide_eq_true_eq] at h
      omega
    · exact le_refl cur

/-- One unfolding step of the readiness polling loop. -/
lemma waitLoop_succ (query : Nat → ExecResult) (t fuel k : Nat) :
    KubernetesDeployer.waitLoop query t (fuel + 1) k =
      if 10 * k < t then
        if KubernetesDeployer.podsReady (query k) then (true, k + 1)
        else KubernetesDeployer.waitLoop query t fuel (k + 1)
      else (false, k) := rfl

/-- If the readiness predicate never holds, the polling loop returns
`false` for every fuel and start index. -/
lemma waitLoop_never_ready (query : Nat → ExecResult) (t : Nat)
    (h : ∀ j, KubernetesDeployer.podsReady (query j) = false) :
    ∀ fuel k, (KubernetesDeployer.waitLoop query t fuel k).1 = false := by
  intro fuel
  induction fuel with
  | zero => intro k; rfl
  | succ f ih =>
    intro k
    rw [waitLoop_succ]
    split
    · rw [h k]
      simp only [Bool.false_eq_true, if_false]
      exact ih (k + 1)
    · rfl

/-- If the predicate first holds at offset `i` from the current cycle `k`
and the timeout has not yet elapsed there, the loop stops at that cycle
with `true`, having polled `i + 1` more times. -/
lemma waitLoop_first_ready (query : Nat → ExecResult) (t : Nat) :
    ∀ i fuel k, i < fuel →
      (∀ j, j < i → KubernetesDeployer.podsReady (query (k + j)) = false) →
      KubernetesDeployer.podsReady (query (k + i)) = true →
      10 * (k + i) < t →
      KubernetesDeployer.waitLoop query t fuel k = (true, k + i + 1) := by
  intro i
  induction i with
  | zero =>
    intro fuel k hf hj hr ht
    match fuel, hf with
    | f + 1, _ =>
      rw [waitLoop_succ]
      rw [if_pos (by omega : 10 * k < t)]
      simp only [Nat.add_zero] at hr
      rw [hr]
      simp
  | succ i ih =>
    intro fuel k hf hj hr ht
    match fuel, hf with
    | f + 1, _ =>
      rw [waitLoop_succ]
      rw [if_pos (by omega : 10 * k < t)]
      have h0 : KubernetesDeployer.podsReady (query k) = false := by
        have := hj 0 (Nat.succ_pos i)
        simpa using this
      rw [h0]
      simp only [Bool.false_eq_true, if_false]
      have hgoal := ih f (k + 1) (by omega)
        (fun j hjlt => by
          have := hj (j + 1) (by omega)
          rwa [show k + (j + 1) = k + 1 + j by omega] at this)
        (by rwa [show k + 1 + i = k + (i + 1) by omega])
        (by omega)
      rw [hgoal]
      congr 1
      omega

/-! ## Claim theorems -/

/-- C2: for every sequence of subprocess output lines observed by the
progress inferencer, the displayed progress is monotonically
non-decreasing: it starts at 0, a single line can only raise it (a marker
updates it only when the target strictly exceeds the current value), and
extending the observed stream never lowers the displayed value — for any
marker order in the stream. -/
theorem progress_inference_monotone :
    (∀ markers cur line, cur ≤ TerraformDeployer.observe_line markers cur line) ∧
    (∀ lines line, TerraformDeployer.apply_progress lines ≤
        TerraformDeployer.apply_progress (lines ++ [line])) ∧
    TerraformDeployer.apply_progress [] = 0 := by
  refine ⟨le_observe_line, ?_, rfl⟩
  intro lines line
  have : TerraformDeployer.apply_progress (lines ++ [line]) =
      TerraformDeployer.observe_line TerraformDeployer.progress_markers
        (TerraformDeployer.apply_progress lines) line := by
    simp [TerraformDeployer.apply_progress, List.foldl_append]
  rw [this]
  exact le_observe_line _ _ _

/-- C9: `create_namespace` returns `True` for every namespace and every
combination of kubectl outcomes — even when every creation attempt fails
with an error that is not "already exists" — and the deploy pipeline's
result is therefore entirely independent of the namespace-creation
kubectl outcomes. -/
theorem create_namespace_always_true :
    (∀ ns calls, KubernetesDeployer.create_namespace ns calls = true) ∧
    (∀ d p c al ar outR pa cf vr n1 n2 n1' n2' sl a ne nsl o m,
      deploy_command ⟨d, p, c, al, ar, outR, pa, cf, vr, n1, n2, sl⟩ a ne nsl o m =
        deploy_command ⟨d, p, c, al, ar, outR, pa, cf, vr, n1', n2', sl⟩ a ne nsl o m) := by
  constructor
  · intro ns calls
    rw [KubernetesDeployer.create_namespace]
    split
    · rfl
    · simp
  · intros; rfl

/-- C10: `cleanup_state_bucket` returns `True` for every combination of
the `keep_state` flag and the user's confirmation answer, and executes no
deletion command at all: the state bucket is always preserved. -/
theorem cleanup_state_bucket_preserves :
    ∀ keep confirmAns,
      TeardownManager.cleanup_state_bucket keep confirmAns = (true, []) := by
  decide

/-- C5 counterexample: the teardown runner's timeout result is the fixed
string "Command timed out", which contains neither the substring "after"
nor any digit, so it does not mention the configured 1800-second timeout —
refuting the claim that on a timeout stderr equals
"timed out after" the configured timeout. -/
theorem teardown_timeout_message_counterexample :
    (TeardownManager.run_command ProcOutcome.timedOut).stderr = "Command timed out" ∧
    containsSub "Command timed out".toList "after".toList = false ∧
    "Command timed out".toList.all (fun c => !c.isDigit) = true := by
  refine ⟨rfl, by decide, by decide⟩

/-- C5 amended: neither runner ever raises (both are total into
`ExecResult`); on a timeout both return exit code 1, the deploy runner
with stderr "Command timed out after 1 hour" (which mentions its one-hour
timeout), the teardown runner with the fixed "Command timed out" (which
does not name the duration); on an invocation failure both return exit
code 1 with the underlying error message in stderr; and a completed
child's exit code and stripped streams are returned as-is. -/
theorem run_command_encodes_failure :
    TerraformDeployer.run_command ProcOutcome.timedOut =
      ⟨1, "", "Command timed out after 1 hour"⟩ ∧
    containsSub "Command timed out after 1 hour".toList "after 1 hour".toList = true ∧
    TeardownManager.run_command ProcOutcome.timedOut = ⟨1, "", "Command timed out"⟩ ∧
    (∀ msg, TerraformDeployer.run_command (ProcOutcome.raised msg) = ⟨1, "", msg⟩) ∧
    (∀ msg, TeardownManager.run_command (ProcOutcome.raised msg) = ⟨1, "", msg⟩) ∧
    (∀ c out err, TerraformDeployer.run_command (ProcOutcome.completed c out err) =
      ⟨c, pyStrip out, pyStrip err⟩) ∧
    (∀ c out err, TeardownManager.run_command (ProcOutcome.completed c out err) =
      ⟨c, pyStrip out, pyStrip err⟩) := by
  exact ⟨rfl, by decide, rfl, fun _ => rfl, fun _ => rfl,
    fun _ _ _ => rfl, fun _ _ _ => rfl⟩

/-- C3: the readiness poller returns `true` in the first poll cycle in
which the predicate holds (provided the timeout has not yet elapsed at
that cycle), having made exactly that many attempts; a query with a
non-zero exit code is treated as "not ready yet" (the predicate is false
on it, the loop keeps polling); and when the predicate never holds the
poller returns `false` — it is a total function, so no exception. -/
theorem wait_for_pods_spec :
    (∀ (query : Nat → ExecResult) (t i : Nat),
      (∀ j, j < i → KubernetesDeployer.podsReady (query j) = false) →
      KubernetesDeployer.podsReady (query i) = true → 10 * i < t →
      KubernetesDeployer.wait_for_pods query t = (true, i + 1)) ∧
    (∀ (query : Nat → ExecResult) (t : Nat),
      (∀ j, KubernetesDeployer.podsReady (query j) = false) →
      (KubernetesDeployer.wait_for_pods query t).1 = false) ∧
    (∀ r : ExecResult, r.exit_code ≠ 0 → KubernetesDeployer.podsReady r = false) := by
  refine ⟨?_, ?_, ?_⟩
  · intro query t i hj hr ht
    have := waitLoop_first_ready query t i (t + 1) 0 (by omega)
      (fun j hjlt => by simpa using hj j hjlt) (by simpa using hr) (by omega)
    simpa [KubernetesDeployer.wait_for_pods] using this
  · intro query t h
    exact waitLoop_never_ready query t h (t + 1) 0
  · intro r hr
    have : (r.exit_code == 0) = false := by simpa using hr
    simp [KubernetesDeployer.podsReady, this]

/-- C3 witness: a query that reports a single Ready pod immediately makes
the poller succeed on the very first cycle. -/
theorem wait_for_pods_spec_witness :
    KubernetesDeployer.wait_for_pods (fun _ => ⟨0, "True", ""⟩) 30 = (true, 1) :=
  wait_for_pods_spec.1 (fun _ => ⟨0, "True", ""⟩) 30 0
    (fun j hj => absurd hj (Nat.not_lt_zero j)) (by decide) (by decide)

/-- C4: with the hard-coded 10-second sleep and a 30-second timeout, a
predicate that never holds yields exactly 3 poll attempts (at idealized
elapsed times 0, 10 and 20 seconds) before the loop condition fails at
30 seconds, and the call returns `false`. -/
theorem wait_for_pods_three_attempts (query : Nat → ExecResult)
    (h : ∀ n, KubernetesDeployer.podsReady (query n) = false) :
    KubernetesDeployer.wait_for_pods query 30 = (false, 3) := by
  show KubernetesDeployer.waitLoop query 30 31 0 = (false, 3)
  rw [show (31 : Nat) = 30 + 1 from rfl, waitLoop_succ,
    if_pos (by omega : 10 * 0 < 30), h 0]
  simp only [Bool.false_eq_true, if_false]
  rw [show (30 : Nat) = 29 + 1 from rfl, waitLoop_succ,
    if_pos (by omega : 10 * 1 < 30), h 1]
  simp only [Bool.false_eq_true, if_false]
  rw [show (29 : Nat) = 28 + 1 from rfl, waitLoop_succ,
    if_pos (by omega : 10 * 2 < 30), h 2]
  simp only [Bool.false_eq_true, if_false]
  rw [show (28 : Nat) = 27 + 1 from rfl, waitLoop_succ,
    if_neg (by omega : ¬10 * 3 < 30)]

/-- C4 witness: a query that always fails (exit code 1) is polled exactly
3 times under a 30-second timeout and the wait returns `false`. -/
theorem wait_for_pods_three_attempts_witness :
    KubernetesDeployer.wait_for_pods (fun _ => ⟨1, "", ""⟩) 30 = (false, 3) :=
  wait_for_pods_three_attempts (fun _ => ⟨1, "", ""⟩) (fun _ => rfl)

/-- C7: in every teardown run that passes the initial confirmation (or is
auto-approved), the pipeline reaches the infrastructure-destroy phase
whatever the outcomes of the namespace-delete steps for `opentelemetry`
and `microservices-demo`. -/
theorem teardown_reaches_destroy (w : TeardownWorld) (a k : Bool)
    (h : a = true ∨ w.confirmTeardown = true) :
    (∀ getRes delRes, (TeardownManager.run_command getRes).exit_code ≠ 0 →
      TeardownManager.delete_namespace getRes delRes = true) ∧
    "infrastructure-destroy" ∈ (teardown_command w a k).2 := by
  constructor
  · intro getRes delRes hg
    have : ((TeardownManager.run_command getRes).exit_code == 0) = false := by
      simpa using hg
    simp [TeardownManager.delete_namespace, this]
  · rw [teardown_command]
    have hc : (!a && !w.confirmTeardown) = false := by
      rcases h with h | h <;> simp [h]
    rw [hc]
    simp only [Bool.false_eq_true, if_false]
    split <;> simp

/-- C7 witness: a run where both namespaces are missing (`kubectl get`
fails with "not found") still reaches infrastructure-destroy. -/
theorem teardown_reaches_destroy_witness :
    "infrastructure-destroy" ∈
      (teardown_command
        ⟨false, ProcOutcome.completed 1 "" "namespaces not found",
         ProcOutcome.completed 0 "" "", ProcOutcome.completed 1 "" "namespaces not found",
         ProcOutcome.completed 0 "" "", true, true, true,
         ProcOutcome.completed 0 "" "", true⟩ true false).2 :=
  (teardown_reaches_destroy _ true false (Or.inl rfl)).2

/-- C1: in every deploy run that reaches the apply phase (directory and
plan succeeded, confirmation given or auto-approved), a non-zero exit of
`terraform apply` terminates the command with exit code 1, the phase trace
ends at "terraform-apply", and none of extract-outputs, configure-kubectl,
verify-cluster-access, namespace creation or notification is reached. -/
theorem apply_failure_aborts (w : DeployWorld) (a : Bool) (ne : List String)
    (ns : Option String) (o m : Bool)
    (hdir : w.dir_exists = true)
    (hplan : TerraformDeployer.terraform_plan w.plan = true)
    (hconf : a = true ∨ w.confirmAns = true)
    (happly : w.apply_returncode ≠ 0) :
    deploy_command w a ne ns o m =
      ⟨1, (if a then ["terraform-plan"] else ["terraform-plan", "confirm"]) ++
        ["terraform-apply"], []⟩ ∧
    "extract-outputs" ∉ (deploy_command w a ne ns o m).phases ∧
    "configure-kubectl" ∉ (deploy_command w a ne ns o m).phases ∧
    "verify-cluster-access" ∉ (deploy_command w a ne ns o m).phases ∧
    "create-namespace-opentelemetry" ∉ (deploy_command w a ne ns o m).phases ∧
    "create-namespace-microservices-demo" ∉ (deploy_command w a ne ns o m).phases ∧
    "notify" ∉ (deploy_command w a ne ns o m).phases := by
  have happ : TerraformDeployer.terraform_apply w.apply_lines w.apply_returncode = false := by
    simp [TerraformDeployer.terraform_apply, happly]
  have heq : deploy_command w a ne ns o m =
      ⟨1, (if a then ["terraform-plan"] else ["terraform-plan", "confirm"]) ++
        ["terraform-apply"], []⟩ := by
    rw [deploy_command, hdir, hplan]
    rcases hconf with h | h
    · rw [h]
      simp [happ]
    · rw [h]
      cases a <;> simp [happ]
  rw [heq]
  cases a <;> simp_all

/-- C1 witness: a concrete run with a successful plan, auto-approval and a
failing apply (return code 1) exits 1 right after the apply phase. -/
theorem apply_failure_aborts_witness :
    deploy_command
      ⟨true, ProcOutcome.completed 0 "Plan: 12 to add" "", true, [], 1,
       ProcOutcome.completed 0 "tfoutput" "", none,
       ProcOutcome.completed 0 "" "", ProcOutcome.completed 0 "" "",
       ⟨ProcOutcome.completed 0 "" "", ProcOutcome.completed 0 "" "",
        ProcOutcome.completed 0 "" "", ProcOutcome.completed 0 "" ""⟩,
       ⟨ProcOutcome.completed 0 "" "", ProcOutcome.completed 0 "" "",
        ProcOutcome.completed 0 "" "", ProcOutcome.completed 0 "" ""⟩,
       NotificationService.HttpOutcome.response 200 ""⟩ true [] none true true =
      ⟨1, ["terraform-plan", "terraform-apply"], []⟩ := by
  have h := apply_failure_aborts
    ⟨true, ProcOutcome.completed 0 "Plan: 12 to add" "", true, [], 1,
     ProcOutcome.completed 0 "tfoutput" "", none,
     ProcOutcome.completed 0 "" "", ProcOutcome.completed 0 "" "",
     ⟨ProcOutcome.completed 0 "" "", ProcOutcome.completed 0 "" "",
      ProcOutcome.completed 0 "" "", ProcOutcome.completed 0 "" ""⟩,
     ⟨ProcOutcome.completed 0 "" "", ProcOutcome.completed 0 "" "",
      ProcOutcome.completed 0 "" "", ProcOutcome.completed 0 "" ""⟩,
     NotificationService.HttpOutcome.response 200 ""⟩ true [] none true true
    rfl rfl (Or.inl rfl) (by decide)
  simpa using h.1

/-- C6 counterexample: a run whose terraform outputs contain
`cluster_name` and `project_id` but no `region` key does not abort — it
proceeds through configure-kubectl and finishes with exit code 0, because
the code defaults a missing `region` to "us-central1" instead of treating
it as a fatal missing output. -/
theorem region_not_required_counterexample :
    (TerraformDeployer.get_terraform_outputs (ProcOutcome.completed 0 "tfoutput" "")
      (some [("cluster_name", "demo-cluster"), ("project_id", "demo-proj")])).lookup
        "region" = none ∧
    deploy_command
      ⟨true, ProcOutcome.completed 0 "Plan: 12 to add" "", true, [], 0,
       ProcOutcome.completed 0 "tfoutput" "",
       some [("cluster_name", "demo-cluster"), ("project_id", "demo-proj")],
       ProcOutcome.completed 0 "" "", ProcOutcome.completed 0 "node-1 Ready" "",
       ⟨ProcOutcome.completed 0 "" "", ProcOutcome.completed 0 "" "",
        ProcOutcome.completed 0 "" "", ProcOutcome.completed 0 "" ""⟩,
       ⟨ProcOutcome.completed 0 "" "", ProcOutcome.completed 0 "" "",
        ProcOutcome.completed 0 "" "", ProcOutcome.completed 0 "" ""⟩,
       NotificationService.HttpOutcome.response 200 ""⟩ true [] none true true =
      ⟨0, ["terraform-plan", "terraform-apply", "extract-outputs", "configure-kubectl",
           "verify-cluster-access", "create-namespace-opentelemetry",
           "create-namespace-microservices-demo"], []⟩ := by
  exact ⟨rfl, by decide⟩

/-- C6 amended: after the apply phase the pipeline requires `cluster_name`
and `project_id` from the terraform outputs; if either is missing (or
empty) it exits 1 at extract-outputs and configure-kubectl is never
reached.  `region` is not required: a missing `region` defaults to
"us-central1" and the run proceeds. -/
theorem missing_required_outputs_abort (w : DeployWorld) (a : Bool) (ne : List String)
    (ns : Option String) (o m : Bool)
    (hdir : w.dir_exists = true)
    (hplan : TerraformDeployer.terraform_plan w.plan = true)
    (hconf : a = true ∨ w.confirmAns = true)
    (happly : w.apply_returncode = 0)
    (hmiss : pyGet (TerraformDeployer.get_terraform_outputs w.outputRes w.parsed)
        "cluster_name" "" = "" ∨
      pyGet (TerraformDeployer.get_terraform_outputs w.outputRes w.parsed)
        "project_id" "" = "") :
    deploy_command w a ne ns o m =
      ⟨1, (if a then ["terraform-plan"] else ["terraform-plan", "confirm"]) ++
        ["terraform-apply", "extract-outputs"], []⟩ ∧
    "configure-kubectl" ∉ (deploy_command w a ne ns o m).phases := by
  have happ : TerraformDeployer.terraform_apply w.apply_lines w.apply_returncode = true := by
    simp [TerraformDeployer.terraform_apply, happly]
  have hm : (pyGet (TerraformDeployer.get_terraform_outputs w.outputRes w.parsed)
        "cluster_name" "" == "" ||
      pyGet (TerraformDeployer.get_terraform_outputs w.outputRes w.parsed)
        "project_id" "" == "") = true := by
    rcases hmiss with h | h <;> simp [h]
  have heq : deploy_command w a ne ns o m =
      ⟨1, (if a then ["terraform-plan"] else ["terraform-plan", "confirm"]) ++
        ["terraform-apply", "extract-outputs"], []⟩ := by
    rw [deploy_command, hdir, hplan]
    rcases hconf with h | h
    · rw [h]
      simp only [Bool.not_true, Bool.false_and, Bool.false_eq_true, if_false, happ,
        if_true, hm]
      simp
    · rw [h]
      cases a <;>
        · simp only [Bool.not_true, Bool.not_false, Bool.and_false, Bool.false_and,
            Bool.false_eq_true, if_false, happ, hm]
          simp
  rw [heq]
  cases a <;> simp_all

/-- C6 amended witness: outputs lacking `cluster_name` abort the run with
exit code 1 at extract-outputs. -/
theorem missing_required_outputs_abort_witness :
    deploy_command
      ⟨true, ProcOutcome.completed 0 "Plan: 12 to add" "", true, [], 0,
       ProcOutcome.completed 0 "tfoutput" "", some [("project_id", "demo-proj")],
       ProcOutcome.completed 0 "" "", ProcOutcome.completed 0 "" "",
       ⟨ProcOutcome.completed 0 "" "", ProcOutcome.completed 0 "" "",
        ProcOutcome.completed 0 "" "", ProcOutcome.completed 0 "" ""⟩,
       ⟨ProcOutcome.completed 0 "" "", ProcOutcome.completed 0 "" "",
        ProcOutcome.completed 0 "" "", ProcOutcome.completed 0 "" ""⟩,
       NotificationService.HttpOutcome.response 200 ""⟩ true [] none true true =
      ⟨1, ["terraform-plan", "terraform-apply", "extract-outputs"], []⟩ := by
  have h := missing_required_outputs_abort
    ⟨true, ProcOutcome.completed 0 "Plan: 12 to add" "", true, [], 0,
     ProcOutcome.completed 0 "tfoutput" "", some [("project_id", "demo-proj")],
     ProcOutcome.completed 0 "" "", ProcOutcome.completed 0 "" "",
     ⟨ProcOutcome.completed 0 "" "", ProcOutcome.completed 0 "" "",
      ProcOutcome.completed 0 "" "", ProcOutcome.completed 0 "" ""⟩,
     ⟨ProcOutcome.completed 0 "" "", ProcOutcome.completed 0 "" "",
      ProcOutcome.completed 0 "" "", ProcOutcome.completed 0 "" ""⟩,
     NotificationService.HttpOutcome.response 200 ""⟩ true [] none true true
    rfl rfl (Or.inl rfl) rfl (Or.inl (by decide))
  simpa using h.1

/-- A deploy run in which every phase up to the notification phase
succeeds and at least one notification channel is configured reaches the
notify phase with exit code 0 and attempts every channel in order. -/
lemma deploy_reaches_notify (w : DeployWorld) (a : Bool) (ne : List String)
    (nsl : Option String) (o m : Bool)
    (hdir : w.dir_exists = true)
    (hplan : TerraformDeployer.terraform_plan w.plan = true)
    (hconf : a = true ∨ w.confirmAns = true)
    (happly : w.apply_returncode = 0)
    (hcluster : pyGet (TerraformDeployer.get_terraform_outputs w.outputRes w.parsed)
      "cluster_name" "" ≠ "")
    (hproj : pyGet (TerraformDeployer.get_terraform_outputs w.outputRes w.parsed)
      "project_id" "" ≠ "")
    (hcfg : KubernetesDeployer.configure_kubectl w.cfgRes = true)
    (hver : KubernetesDeployer.verify_cluster_access w.verRes = true)
    (hch : ne ≠ [] ∨ optStrTruthy nsl = true) :
    deploy_command w a ne nsl o m =
      ⟨0, (if a then ["terraform-plan"] else ["terraform-plan", "confirm"]) ++
          ["terraform-apply", "extract-outputs", "configure-kubectl",
           "verify-cluster-access"] ++
          (if o then ["create-namespace-opentelemetry"] else []) ++
          (if m then ["create-namespace-microservices-demo"] else []) ++ ["notify"],
        ne.map NotificationService.send_email ++
          (if optStrTruthy nsl then [NotificationService.send_slack w.slackRes]
           else [])⟩ := by
  have happ : TerraformDeployer.terraform_apply w.apply_lines w.apply_returncode = true := by
    simp [TerraformDeployer.terraform_apply, happly]
  have hm : (pyGet (TerraformDeployer.get_terraform_outputs w.outputRes w.parsed)
        "cluster_name" "" == "" ||
      pyGet (TerraformDeployer.get_terraform_outputs w.outputRes w.parsed)
        "project_id" "" == "") = false := by
    simp [hcluster, hproj]
  have hch' : (!ne.isEmpty || optStrTruthy nsl) = true := by
    rcases hch with h | h
    · simp [h]
    · simp [h]
  rw [deploy_command, hdir, hplan]
  rcases hconf with h | h
  · rw [h]
    cases o <;> cases m <;> simp [happ, hm, hcfg, hver, hch']
  · rw [h]
    cases a <;> cases o <;> cases m <;> simp [happ, hm, hcfg, hver, hch']

/-- C8: notification dispatch is best-effort.  In every deploy run that
reaches the notification phase, the command returns 0 and the attempted
channel results are exactly one entry per configured email followed by the
Slack entry when a webhook is configured — whatever the Slack outcome is —
and a Slack transport error or non-200 response is captured inside
`send_slack` as a `false` result, never as an exception. -/
theorem notifications_best_effort (w : DeployWorld) (a : Bool) (ne : List String)
    (nsl : Option String) (o m : Bool)
    (hdir : w.dir_exists = true)
    (hplan : TerraformDeployer.terraform_plan w.plan = true)
    (hconf : a = true ∨ w.confirmAns = true)
    (happly : w.apply_returncode = 0)
    (hcluster : pyGet (TerraformDeployer.get_terraform_outputs w.outputRes w.parsed)
      "cluster_name" "" ≠ "")
    (hproj : pyGet (TerraformDeployer.get_terraform_outputs w.outputRes w.parsed)
      "project_id" "" ≠ "")
    (hcfg : KubernetesDeployer.configure_kubectl w.cfgRes = true)
    (hver : KubernetesDeployer.verify_cluster_access w.verRes = true)
    (hch : ne ≠ [] ∨ optStrTruthy nsl = true) :
    (deploy_command w a ne nsl o m).exit_code = 0 ∧
    (deploy_command w a ne nsl o m).notify_results =
      ne.map NotificationService.send_email ++
        (if optStrTruthy nsl then [NotificationService.send_slack w.slackRes]
         else []) ∧
    "notify" ∈ (deploy_command w a ne nsl o m).phases ∧
    (∀ msg, NotificationService.send_slack
      (NotificationService.HttpOutcome.error msg) = false) ∧
    (∀ s t, s ≠ 200 → NotificationService.send_slack
      (NotificationService.HttpOutcome.response s t) = false) := by
  have heq := deploy_reaches_notify w a ne nsl o m hdir hplan hconf happly
    hcluster hproj hcfg hver hch
  refine ⟨by rw [heq], by rw [heq], ?_, fun msg => rfl,
    fun s t hs => by simp [NotificationService.send_slack, hs]⟩
  rw [heq]
  simp

/-- C8 witness: a run with one email recipient and a Slack webhook whose
post raises a connection error still exits 0; the email channel is
attempted (and succeeds) and the Slack failure is recorded as `false`. -/
theorem notifications_best_effort_witness :
    (deploy_command
      ⟨true, ProcOutcome.completed 0 "Plan: 12 to add" "", true, [], 0,
       ProcOutcome.completed 0 "tfoutput" "",
       some [("cluster_name", "demo-cluster"), ("project_id", "demo-proj"),
             ("region", "us-east1")],
       ProcOutcome.completed 0 "" "", ProcOutcome.completed 0 "node-1 Ready" "",
       ⟨ProcOutcome.completed 0 "" "", ProcOutcome.completed 0 "" "",
        ProcOutcome.completed 0 "" "", ProcOutcome.completed 0 "" ""⟩,
       ⟨ProcOutcome.completed 0 "" "", ProcOutcome.completed 0 "" "",
        ProcOutcome.completed 0 "" "", ProcOutcome.completed 0 "" ""⟩,
       NotificationService.HttpOutcome.error "Connection refused"⟩
      true ["ops@example.com"] (some "https://hooks.example.com/T000/B000") true
      true).exit_code = 0 ∧
    (deploy_command
      ⟨true, ProcOutcome.completed 0 "Plan: 12 to add" "", true, [], 0,
       ProcOutcome.completed 0 "tfoutput" "",
       some [("cluster_name", "demo-cluster"), ("project_id", "demo-proj"),
             ("region", "us-east1")],
       ProcOutcome.completed 0 "" "", ProcOutcome.completed 0 "node-1 Ready" "",
       ⟨ProcOutcome.completed 0 "" "", ProcOutcome.completed 0 "" "",
        ProcOutcome.completed 0 "" "", ProcOutcome.completed 0 "" ""⟩,
       ⟨ProcOutcome.completed 0 "" "", ProcOutcome.completed 0 "" "",
        ProcOutcome.completed 0 "" "", ProcOutcome.completed 0 "" ""⟩,
       NotificationService.HttpOutcome.error "Connection refused"⟩
      true ["ops@example.com"] (some "https://hooks.example.com/T000/B000") true
      true).notify_results = [true, false] := by
  have h := notifications_best_effort
    ⟨true, ProcOutcome.completed 0 "Plan: 12 to add" "", true, [], 0,
     ProcOutcome.completed 0 "tfoutput" "",
     some [("cluster_name", "demo-cluster"), ("project_id", "demo-proj"),
           ("region", "us-east1")],
     ProcOutcome.completed 0 "" "", ProcOutcome.completed 0 "node-1 Ready" "",
     ⟨ProcOutcome.completed 0 "" "", ProcOutcome.completed 0 "" "",
      ProcOutcome.completed 0 "" "", ProcOutcome.completed 0 "" ""⟩,
     ⟨ProcOutcome.completed 0 "" "", ProcOutcome.completed 0 "" "",
      ProcOutcome.completed 0 "" "", ProcOutcome.completed 0 "" ""⟩,
     NotificationService.HttpOutcome.error "Connection refused"⟩
    true ["ops@example.com"] (some "https://hooks.example.com/T000/B000") true true
    rfl rfl (Or.inl rfl) rfl (by decide) (by decide) rfl rfl (Or.inl (by decide))
  refine ⟨h.1, ?_⟩
  rw [h.2.1]
  decide

